import Mathlib

/-! Verification development for the xgboost_ray coordination layer
(file xgboost_ray/main.py): deterministic checkpoint path derivation,
the worker shard cache, GPU-count resolution, the rabit rendezvous
context, the per-attempt coordinator and its cleanup, and the public
retry loop with its exhaustion error.  Machine integers are modelled as
Nat/Int, dictionaries as association structures, the file system as the
list of paths that currently exist, and exceptions as explicit error
values. -/

namespace XGBoostRay

/-! ## Decimal formatting (Python f-string with format spec 05d) -/

/-- Little-endian decimal digit expansion, computed with explicit fuel so
that it is structural; called with fuel at least the number itself.
Returns the empty list for 0. -/
def pyDigitsAux : Nat → Nat → List Nat
  | _, 0 => []
  | 0, _ + 1 => []
  | fuel + 1, n + 1 => ((n + 1) % 10) :: pyDigitsAux fuel ((n + 1) / 10)

/-- Little-endian decimal digits of a natural number (empty for 0). -/
def pyDigitsLE (n : Nat) : List Nat := pyDigitsAux n n

/-- Digit list of the Python decimal rendering of a natural number, most
significant digit first; 0 renders as the single digit 0. -/
def pyNatDigits (n : Nat) : List Nat :=
  if n = 0 then [0] else (pyDigitsLE n).reverse

/-- Value of a little-endian decimal digit list. -/
def listToNatLE : List Nat → Nat
  | [] => 0
  | d :: t => d + 10 * listToNatLE t

/-- Left-pad a digit list with zeros to width w (Python format spec 05d
pads with the zero character on the left, and never truncates). -/
def zeroPad (w : Nat) (ds : List Nat) : List Nat :=
  List.replicate (w - ds.length) 0 ++ ds

/-- Python expression f-string of rank with format spec 05d: the decimal
rendering of the rank, zero-padded on the left to five characters. -/
def formatRank5 (n : Nat) : String :=
  String.mk ((zeroPad 5 (pyNatDigits n)).map Nat.digitChar)

/-! ## Checkpoint path derivation (source function _checkpoint_file) -/

/-- Python truthiness of an Optional string: None and the empty string
are falsy, every other string is truthy. -/
def pyTruthy : Option String → Bool
  | none => false
  | some s => decide (s ≠ "")

/-- Whether a path string starts with the POSIX separator. -/
def strStartsWithSlash (s : String) : Bool :=
  decide (s.data.head? = some '/')

/-- Whether a path string ends with the POSIX separator. -/
def strEndsWithSlash (s : String) : Bool :=
  decide (s.data.getLast? = some '/')

/-- Two-component os.path.join on POSIX: an absolute second component
replaces the first; otherwise the separator is inserted unless the first
component is empty or already ends with the separator. -/
def posixJoin (a b : String) : String :=
  if strStartsWithSlash b then b
  else if a = "" || strEndsWithSlash a then a ++ b
  else a ++ "/" ++ b

/-- Source function _checkpoint_file(path, prefix, rank): None when the
prefix is falsy, otherwise os.path.join of the directory with the file
name built from the prefix, the underscore, the rank zero-padded to five
digits, and the .xgb extension. -/
def _checkpoint_file (path : String) (pfx : Option String) (rank : Nat) : Option String :=
  if pyTruthy pfx then
    some (posixJoin path ((pfx.getD "") ++ "_" ++ formatRank5 rank ++ ".xgb"))
  else none

/-! ## Worker shard cache (class RayXGBoostActor, method load_data) -/

/-- Observable state of one RayXGBoostActor relevant to shard loading:
the key set of the _data dictionary (keyed by dataset-handle value,
modelled as Nat), and a counter of how many times the collaborating
dataset handle load has been invoked. -/
structure WorkerState where
  _data : List Nat
  loadCalls : Nat
deriving DecidableEq

/-- Source method load_data(self, data): unconditionally invokes the
dataset handle load (counter increases), materializes the matrix, and
stores it in the _data dictionary under the handle key. -/
def load_data (h : Nat) (s : WorkerState) : WorkerState :=
  { _data := if h ∈ s._data then s._data else h :: s._data,
    loadCalls := s.loadCalls + 1 }

/-- Ensure-loaded step at the top of RayXGBoostActor.train: the handle
is loaded only when it is not already a key of the _data dictionary. -/
def ensureLoaded (h : Nat) (s : WorkerState) : WorkerState :=
  if h ∈ s._data then s else load_data h s

/-! ## Periodic checkpoint callback (property _save_checkpoint_callback) -/

/-- Immutable per-actor configuration from the RayXGBoostActor
constructor. -/
structure ActorConfig where
  rank : Nat
  numActors : Nat
  checkpointPfx : Option String
  checkpointPath : String
  checkpointFrequency : Nat

/-- Property checkpoint_file of RayXGBoostActor: the derived per-rank
checkpoint path. -/
def checkpoint_file (a : ActorConfig) : Option String :=
  _checkpoint_file a.checkpointPath a.checkpointPfx a.rank

/-- The callback produced by _save_checkpoint_callback, as the list of
save targets it writes at a given iteration: it saves the model to this
rank checkpoint file when the iteration index is divisible by the
checkpoint frequency, and writes nothing otherwise. -/
def _save_checkpoint_callback (a : ActorConfig) (iteration : Nat) : List (Option String) :=
  if iteration % a.checkpointFrequency = 0 then [checkpoint_file a] else []

/-! ## GPU-per-worker resolution (head of source function _train) -/

/-- Python str.startswith on character sequences. -/
def pyStartsWith (s pre : String) : Bool :=
  List.isPrefixOf pre.data s.data

/-- GPU resolution in _train: the sentinel -1 means unspecified and is
resolved to 0, or to 1 when the params dictionary holds a tree_method
value that starts with the letters gpu; any other supplied value is kept
unchanged. -/
def resolveGpusPerWorker (gpusPerWorker : Int) (treeMethod : Option String) : Int :=
  if gpusPerWorker = -1 then
    match treeMethod with
    | some t => if pyStartsWith t ("gpu") then 1 else 0
    | none => 0
  else gpusPerWorker

/-! ## Errors -/

/-- Exceptions relevant to the coordination layer: the Ray actor failure
signal, the RuntimeError raised on retry exhaustion, and any other
error (for example one raised by the training engine). -/
inductive PyError where
  | rayActorError
  | runtimeError (msg : String)
  | otherError (msg : String)
deriving DecidableEq

/-! ## Rabit rendezvous context (class RabitContext, actor train) -/

/-- Observable events of one actor-side training call. -/
inductive TrainEvent where
  | rabitInit (args : List String)
  | engineTrain
  | rabitFinalize
deriving DecidableEq

/-- Argument list built by the RabitContext constructor: the tracker
environment arguments with the task identifier appended, the identifier
being the fixed namespace followed by the actor instance identity. -/
def rabitContextArgs (actorId : String) (args : List String) : List String :=
  args ++ ["DMLC_TASK_ID=[xgboost.ray]:" ++ actorId]

/-- Semantics of the with-statement over a RabitContext: rabit init runs
on entry, the body runs to its outcome (normal return or exception), and
rabit finalize runs on exit in either case. -/
def withRabitContext (actorId : String) (rabitArgs : List String)
    (body : List TrainEvent × Except PyError Nat) : List TrainEvent × Except PyError Nat :=
  (TrainEvent.rabitInit (rabitContextArgs actorId rabitArgs) :: body.1
    ++ [TrainEvent.rabitFinalize], body.2)

/-- Tail of RayXGBoostActor.train: the xgb.train engine invocation is
wrapped in the RabitContext with-statement, and its outcome (model or
raised error) is the outcome of the call. -/
def RayXGBoostActor.trainModel (actorId : String) (rabitArgs : List String)
    (engine : Except PyError Nat) : List TrainEvent × Except PyError Nat :=
  withRabitContext actorId rabitArgs ([TrainEvent.engineTrain], engine)

/-! ## Coordinator: one attempt (_train), cleanup, retry loop (train) -/

/-- Job configuration threaded from train into every _train attempt. -/
structure JobConfig where
  numActors : Nat
  checkpointPfx : Option String
  checkpointPath : String
  checkpointFrequency : Nat

/-- Environment behaviour of one attempt: an error surfaced by the
ray.get barrier over the shard loads, an error surfaced by the ray.get
barrier over the train calls, the checkpoint files the workers wrote
before the attempt ended, and the resulting model blob on success. -/
structure AttemptBehavior where
  loadError : Option PyError
  trainError : Option PyError
  writtenFiles : List String
  result : Nat

/-- Coordinator-visible state: the set of files on durable storage and
the running count of worker-spawn events. -/
structure TrainState where
  fs : List String
  spawned : Nat
deriving DecidableEq

/-- Source function _cleanup(checkpoint_prefix, checkpoint_path,
num_actors): removes, for every rank below the actor count, the derived
checkpoint file when it exists. -/
def _cleanup (pfx : String) (path : String) (numActors : Nat) (fs : List String) : List String :=
  fs.filter (fun f =>
    ! (List.range numActors).any (fun i => decide (_checkpoint_file path (some pfx) i = some f)))

/-- Source function _train, one training attempt: spawn num_actors fresh
actors, run the shard-load barrier (which may raise), let the workers
write checkpoint files while training, run the train barrier (which may
raise), and on success run _cleanup when the checkpoint prefix is
truthy, then return the first actor result. -/
def _train (cfg : JobConfig) (beh : AttemptBehavior) (s : TrainState) :
    Except PyError Nat × TrainState :=
  let s1 : TrainState := ⟨s.fs, s.spawned + cfg.numActors⟩
  match beh.loadError with
  | some e => (Except.error e, s1)
  | none =>
    let s2 : TrainState := ⟨s1.fs ++ beh.writtenFiles, s1.spawned⟩
    match beh.trainError with
    | some e => (Except.error e, s2)
    | none =>
      if pyTruthy cfg.checkpointPfx then
        (Except.ok beh.result,
          ⟨_cleanup (cfg.checkpointPfx.getD "") cfg.checkpointPath cfg.numActors s2.fs,
            s2.spawned⟩)
      else (Except.ok beh.result, s2)

/-- The message of the RuntimeError raised on retry exhaustion, exactly
as the source builds it: format substitutes checkpoint_path into the
first slot and checkpoint_frequency into the second slot (the one the
surrounding text labels as the prefix). -/
def exhaustMessage (checkpointPath : String) (checkpointFrequency : Nat) : String :=
  "A Ray actor died during training and the maximum number of retries is " ++
  "exhausted. Checkpoints have been stored at `" ++ checkpointPath ++
  "` with prefix `" ++ Nat.repr checkpointFrequency ++
  "` - you can pass these parameters as `checkpoint_path` and " ++
  "`checkpoint_prefix` to the `train()` function to try to continue " ++
  "the training."

/-- Outcome of the public train function: a normal return from a
successful attempt, a raised error, or the trailing fall-through
return of None and the empty dictionary after the while loop. -/
inductive LoopOutcome where
  | returned (res : Nat)
  | raised (e : PyError)
  | fellThrough
deriving DecidableEq

/-- Source function train, the retry loop, for a nonnegative restart
budget maxR (the sentinel -1 maps to an infinite budget and keeps the
loop guard identically true): while tries is at most maxR, run one
_train attempt; return its result on success; on RayActorError retry
when another try remains and otherwise raise the exhaustion
RuntimeError; propagate every other error unchanged; after the loop
fall through to the sentinel return. -/
def train (behs : Nat → AttemptBehavior) (cfg : JobConfig) (maxR : Nat)
    (tries : Nat) (s : TrainState) : LoopOutcome × TrainState :=
  if tries ≤ maxR then
    match _train cfg (behs tries) s with
    | (Except.ok r, s2) => (LoopOutcome.returned r, s2)
    | (Except.error e, s2) =>
      if e = PyError.rayActorError then
        if h2 : tries + 1 ≤ maxR then train behs cfg maxR (tries + 1) s2
        else (LoopOutcome.raised (PyError.runtimeError
          (exhaustMessage cfg.checkpointPath cfg.checkpointFrequency)), s2)
      else (LoopOutcome.raised e, s2)
  else (LoopOutcome.fellThrough, s)
termination_by maxR + 1 - tries
decreasing_by omega

/-! ## Helper lemmas: decimal formatting is injective -/

theorem listToNatLE_pyDigitsAux :
    ∀ fuel n, n ≤ fuel → listToNatLE (pyDigitsAux fuel n) = n := by
  intro fuel
  induction fuel with
  | zero =>
    intro n hn
    have h0 : n = 0 := Nat.le_zero.mp hn
    subst h0
    simp [pyDigitsAux, listToNatLE]
  | succ f ih =>
    intro n hn
    match n with
    | 0 => simp [pyDigitsAux, listToNatLE]
    | m + 1 =>
      have hdiv : (m + 1) / 10 ≤ f := by
        have hlt : (m + 1) / 10 < m + 1 := Nat.div_lt_self (Nat.succ_pos m) (by norm_num)
        omega
      simp only [pyDigitsAux, listToNatLE, ih ((m + 1) / 10) hdiv]
      omega

theorem pyDigitsAux_lt :
    ∀ fuel n d, d ∈ pyDigitsAux fuel n → d < 10 := by
  intro fuel
  induction fuel with
  | zero =>
    intro n d hd
    match n with
    | 0 => simp [pyDigitsAux] at hd
    | m + 1 => simp [pyDigitsAux] at hd
  | succ f ih =>
    intro n d hd
    match n with
    | 0 => simp [pyDigitsAux] at hd
    | m + 1 =>
      simp only [pyDigitsAux, List.mem_cons] at hd
      rcases hd with hd | hd
      · subst hd; exact Nat.mod_lt _ (by norm_num)
      · exact ih _ _ hd

theorem pyNatDigits_lt (n d : Nat) (hd : d ∈ pyNatDigits n) : d < 10 := by
  unfold pyNatDigits at hd
  by_cases h0 : n = 0
  · simp [h0] at hd
    omega
  · simp only [h0, if_false, List.mem_reverse] at hd
    exact pyDigitsAux_lt n n d hd

theorem zeroPad_lt (w : Nat) (ds : List Nat) (hds : ∀ d ∈ ds, d < 10) :
    ∀ d ∈ zeroPad w ds, d < 10 := by
  intro d hd
  unfold zeroPad at hd
  rcases List.mem_append.mp hd with hd | hd
  · have := List.eq_of_mem_replicate hd
    omega
  · exact hds d hd

theorem listToNatLE_replicate_zero (k : Nat) :
    listToNatLE (List.replicate k 0) = 0 := by
  induction k with
  | zero => simp [listToNatLE]
  | succ j ih => simp [List.replicate_succ, listToNatLE, ih]

theorem listToNatLE_append_zeros (l : List Nat) (k : Nat) :
    listToNatLE (l ++ List.replicate k 0) = listToNatLE l := by
  induction l with
  | nil => simp [listToNatLE, listToNatLE_replicate_zero]
  | cons d t iht => simp [listToNatLE, iht]

theorem recover_zeroPad (w n : Nat) :
    listToNatLE ((zeroPad w (pyNatDigits n)).reverse) = n := by
  unfold zeroPad
  rw [List.reverse_append, List.reverse_replicate]
  by_cases h0 : n = 0
  · subst h0
    simp only [pyNatDigits, if_true, reduceIte]
    rw [listToNatLE_append_zeros]
    simp [listToNatLE]
  · simp only [pyNatDigits, h0, if_false, List.reverse_reverse]
    rw [listToNatLE_append_zeros]
    exact listToNatLE_pyDigitsAux n n le_rfl

theorem digitChar_injOn :
    ∀ a, a < 10 → ∀ b, b < 10 → Nat.digitChar a = Nat.digitChar b → a = b := by decide

theorem map_digitChar_inj :
    ∀ l1 l2 : List Nat, (∀ d ∈ l1, d < 10) → (∀ d ∈ l2, d < 10) →
      l1.map Nat.digitChar = l2.map Nat.digitChar → l1 = l2 := by
  intro l1
  induction l1 with
  | nil =>
    intro l2 _ _ h
    cases l2 with
    | nil => rfl
    | cons b t2 => simp at h
  | cons a t ih =>
    intro l2 h1 h2 h
    cases l2 with
    | nil => simp at h
    | cons b t2 =>
      simp only [List.map_cons, List.cons.injEq] at h
      have ha : a < 10 := h1 a (by simp)
      have hb : b < 10 := h2 b (by simp)
      have hab : a = b := digitChar_injOn a ha b hb h.1
      have ht : t = t2 := ih t2 (fun d hd => h1 d (by simp [hd]))
        (fun d hd => h2 d (by simp [hd])) h.2
      rw [hab, ht]

theorem formatRank5_inj (m n : Nat) (h : formatRank5 m = formatRank5 n) : m = n := by
  unfold formatRank5 at h
  have hdata : ((zeroPad 5 (pyNatDigits m)).map Nat.digitChar)
      = ((zeroPad 5 (pyNatDigits n)).map Nat.digitChar) := congrArg String.data h
  have hz : zeroPad 5 (pyNatDigits m) = zeroPad 5 (pyNatDigits n) :=
    map_digitChar_inj _ _ (zeroPad_lt 5 _ (pyNatDigits_lt m)) (zeroPad_lt 5 _ (pyNatDigits_lt n))
      hdata
  have hm := recover_zeroPad 5 m
  rw [hz, recover_zeroPad 5 n] at hm
  exact hm.symm

/-! ## Helper lemmas: strings and paths -/

theorem string_data_inj {a b : String} (h : a.data = b.data) : a = b := by
  cases a; cases b; exact congrArg String.mk h

theorem string_data_ne_nil {p : String} (hp : p ≠ "") : p.data ≠ [] := by
  intro hnil
  exact hp (string_data_inj (by rw [hnil]))

theorem head_append_of_ne_nil {l1 l2 : List Char} (h : l1 ≠ []) :
    (l1 ++ l2).head? = l1.head? := by
  cases l1 with
  | nil => exact absurd rfl h
  | cons c t => rfl

theorem string_append_left_cancel {a b c : String} (h : a ++ b = a ++ c) : b = c := by
  apply string_data_inj
  have hd := congrArg String.data h
  simp only [String.data_append] at hd
  exact List.append_cancel_left hd

theorem strStartsWithSlash_fname (p f2 : String) (hp : p ≠ "") :
    strStartsWithSlash (p ++ "_" ++ f2 ++ ".xgb") = strStartsWithSlash p := by
  unfold strStartsWithSlash
  have hh : ((p ++ "_" ++ f2 ++ ".xgb").data).head? = p.data.head? := by
    simp only [String.data_append, List.append_assoc]
    exact head_append_of_ne_nil (string_data_ne_nil hp)
  rw [hh]

theorem fname_inj (p : String) (r1 r2 : Nat)
    (h : p ++ "_" ++ formatRank5 r1 ++ ".xgb" = p ++ "_" ++ formatRank5 r2 ++ ".xgb") :
    r1 = r2 := by
  apply formatRank5_inj
  apply string_data_inj
  have hd := congrArg String.data h
  simp only [String.data_append, List.append_assoc] at hd
  exact List.append_cancel_right (List.append_cancel_left (List.append_cancel_left hd))

theorem checkpoint_file_inj (path p : String) (r1 r2 : Nat) (hp : p ≠ "")
    (h : _checkpoint_file path (some p) r1 = _checkpoint_file path (some p) r2) :
    r1 = r2 := by
  unfold _checkpoint_file at h
  have htr : pyTruthy (some p) = true := by simp [pyTruthy, hp]
  rw [htr] at h
  simp only [if_true, Option.getD_some, Option.some.injEq] at h
  unfold posixJoin at h
  rw [strStartsWithSlash_fname p (formatRank5 r1) hp,
    strStartsWithSlash_fname p (formatRank5 r2) hp] at h
  by_cases hs : strStartsWithSlash p = true
  · rw [hs] at h
    simp only [if_true] at h
    exact fname_inj p r1 r2 h
  · rw [Bool.not_eq_true] at hs
    rw [hs] at h
    simp only [Bool.false_eq_true, if_false] at h
    by_cases hc : (path = "" || strEndsWithSlash path) = true
    · rw [hc] at h
      simp only [if_true] at h
      exact fname_inj p r1 r2 (string_append_left_cancel h)
    · rw [Bool.not_eq_true] at hc
      rw [hc] at h
      simp only [Bool.false_eq_true, if_false] at h
      exact fname_inj p r1 r2 (string_append_left_cancel h)

/-! ## Claim C6 -/

/-- C6: the source function _checkpoint_file is a pure function of the
checkpoint directory, the checkpoint prefix and the rank; it returns
none exactly when no prefix is configured (the prefix is absent or
empty, which Python treats as falsy), otherwise — for a directory that
is nonempty, has no trailing separator, and a prefix with no leading
separator, the standard shape of these configuration values — it
returns exactly the string dir/pfx_rank.xgb with the rank zero-padded
to five digits, and for a fixed directory and prefix no two distinct
ranks share a file path. -/
theorem c6_checkpoint_path_derivation :
    (∀ path pfx rank, _checkpoint_file path pfx rank = none ↔ (pfx = none ∨ pfx = some ""))
    ∧ (∀ path p rank, p ≠ "" → path ≠ "" → strEndsWithSlash path = false →
        strStartsWithSlash p = false →
        _checkpoint_file path (some p) rank =
          some (path ++ "/" ++ p ++ "_" ++ formatRank5 rank ++ ".xgb"))
    ∧ (∀ path p r1 r2, p ≠ "" →
        _checkpoint_file path (some p) r1 = _checkpoint_file path (some p) r2 → r1 = r2) := by
  refine ⟨?_, ?_, ?_⟩
  · intro path pfx rank
    cases pfx with
    | none => simp [_checkpoint_file, pyTruthy]
    | some s =>
      by_cases hs : s = ""
      · subst hs; simp [_checkpoint_file, pyTruthy]
      · simp [_checkpoint_file, pyTruthy, hs]
  · intro path p rank hp hpath hend hstart
    unfold _checkpoint_file
    have htr : pyTruthy (some p) = true := by simp [pyTruthy, hp]
    rw [htr]
    simp only [if_true, Option.getD_some]
    unfold posixJoin
    rw [strStartsWithSlash_fname p (formatRank5 rank) hp, hstart]
    simp only [Bool.false_eq_true, if_false]
    have hc : (path = "" || strEndsWithSlash path) = false := by
      simp [hpath, hend]
    rw [hc]
    simp only [Bool.false_eq_true, if_false, Option.some.injEq]
    apply string_data_inj
    simp [String.data_append, List.append_assoc]
  · intro path p r1 r2 hp h
    exact checkpoint_file_inj path p r1 r2 hp h

/-- Witness for C6: a concrete evaluation through the second and third
parts of the theorem, with every hypothesis discharged by decide. -/
theorem c6_checkpoint_path_derivation_witness :
    _checkpoint_file ("/tmp") (some ("ckpt")) 7 = some ("/tmp/ckpt_00007.xgb")
    ∧ (1 : Nat) = 1 := by
  constructor
  · have h := c6_checkpoint_path_derivation.2.1 ("/tmp") ("ckpt") 7
      (by decide) (by decide) (by decide) (by decide)
    rw [h]
    decide
  · exact c6_checkpoint_path_derivation.2.2 ("/tmp") ("ckpt") 1 1 (by decide) rfl

/-! ## Claim C1 -/

/-- C1 counterexample: invoking load_data twice on a fresh worker for
the same handle performs the underlying dataset-handle load twice, not
once — the method itself never consults the cache, so the claim that it
is idempotent per handle is false as stated. -/
theorem c1_load_data_counterexample :
    (load_data 0 (load_data 0 ⟨[], 0⟩)).loadCalls = 2
    ∧ ¬ (load_data 0 (load_data 0 ⟨[], 0⟩)).loadCalls = 1 := by decide

/-- C1 (amended): the cache check lives in RayXGBoostActor.train, not in
load_data: the ensure-loaded step invokes load_data only when the handle
is not yet a key of the _data dictionary, so that step is idempotent per
handle and, run twice from a state where the handle is uncached,
performs the underlying load exactly once. -/
theorem c1_ensure_loaded_idempotent :
    (∀ (h : Nat) (s : WorkerState), ensureLoaded h (ensureLoaded h s) = ensureLoaded h s)
    ∧ (∀ (h : Nat) (s : WorkerState), h ∉ s._data →
        (ensureLoaded h (ensureLoaded h s)).loadCalls = s.loadCalls + 1) := by
  have key : ∀ (h : Nat) (s : WorkerState), h ∉ s._data →
      ensureLoaded h (ensureLoaded h s) = load_data h s := by
    intro h s hnotin
    have h1 : ensureLoaded h s = load_data h s := by simp [ensureLoaded, hnotin]
    have hmem : h ∈ (load_data h s)._data := by simp [load_data, hnotin]
    rw [h1]
    simp [ensureLoaded, hmem]
  constructor
  · intro h s
    by_cases hmem : h ∈ s._data
    · simp [ensureLoaded, hmem]
    · rw [key h s hmem]
      simp [ensureLoaded, hmem]
  · intro h s hnotin
    rw [key h s hnotin]
    simp [load_data]

/-- Witness for C1: the amended idempotence evaluated on a fresh worker
and a concrete handle. -/
theorem c1_ensure_loaded_idempotent_witness :
    ensureLoaded 3 (ensureLoaded 3 ⟨[], 0⟩) = ensureLoaded 3 ⟨[], 0⟩
    ∧ (ensureLoaded 3 (ensureLoaded 3 ⟨[], 0⟩)).loadCalls = 0 + 1 :=
  ⟨c1_ensure_loaded_idempotent.1 3 ⟨[], 0⟩,
    c1_ensure_loaded_idempotent.2 3 ⟨[], 0⟩ (by decide)⟩

/-! ## Claim C7 -/

/-- C7: when the GPU-per-worker count is the sentinel -1, the
coordinator resolves it to 0, unless the job parameters hold a
tree_method value starting with gpu, in which case it resolves to 1;
an explicitly supplied non-sentinel value is used unchanged. -/
theorem c7_gpu_resolution (g : Int) (tm : Option String) :
    (resolveGpusPerWorker (-1) none = 0)
    ∧ (∀ t : String, pyStartsWith t ("gpu") = true → resolveGpusPerWorker (-1) (some t) = 1)
    ∧ (∀ t : String, pyStartsWith t ("gpu") = false → resolveGpusPerWorker (-1) (some t) = 0)
    ∧ (g ≠ -1 → resolveGpusPerWorker g tm = g) := by
  refine ⟨rfl, ?_, ?_, ?_⟩
  · intro t ht
    simp [resolveGpusPerWorker, ht]
  · intro t ht
    simp [resolveGpusPerWorker, ht]
  · intro hg
    simp [resolveGpusPerWorker, hg]

/-- Witness for C7: concrete resolutions for a GPU tree method, a CPU
tree method, and an explicitly supplied count. -/
theorem c7_gpu_resolution_witness :
    resolveGpusPerWorker (-1) (some ("gpu_hist")) = 1
    ∧ resolveGpusPerWorker (-1) (some ("hist")) = 0
    ∧ resolveGpusPerWorker 2 (some ("gpu_hist")) = 2 :=
  ⟨(c7_gpu_resolution 2 (some ("gpu_hist"))).2.1 ("gpu_hist") (by decide),
    (c7_gpu_resolution 2 (some ("hist"))).2.2.1 ("hist") (by decide),
    (c7_gpu_resolution 2 (some ("gpu_hist"))).2.2.2 (by decide)⟩

/-! ## Claim C8 -/

/-- C8: the periodic save hook writes the serialized model to this rank
checkpoint file if and only if the iteration index is a multiple of the
configured checkpoint frequency (the frequency is positive: Python
would raise on a zero modulus). -/
theorem c8_save_checkpoint_callback (a : ActorConfig) (i : Nat)
    (hf : 0 < a.checkpointFrequency) :
    (_save_checkpoint_callback a i = [checkpoint_file a] ↔ a.checkpointFrequency ∣ i)
    ∧ (_save_checkpoint_callback a i = [] ↔ ¬ a.checkpointFrequency ∣ i) := by
  have hiff : a.checkpointFrequency ∣ i ↔ i % a.checkpointFrequency = 0 :=
    Nat.dvd_iff_mod_eq_zero
  unfold _save_checkpoint_callback
  rw [hiff]
  by_cases hm : i % a.checkpointFrequency = 0 <;> simp [hm]

/-- Witness for C8: with frequency 5 the hook writes at iteration 10
and writes nothing at iteration 7. -/
theorem c8_save_checkpoint_callback_witness :
    (_save_checkpoint_callback ⟨0, 4, some ("ckpt"), "/tmp", 5⟩ 10 =
      [checkpoint_file ⟨0, 4, some ("ckpt"), "/tmp", 5⟩])
    ∧ (_save_checkpoint_callback ⟨0, 4, some ("ckpt"), "/tmp", 5⟩ 7 = []) :=
  ⟨(c8_save_checkpoint_callback ⟨0, 4, some ("ckpt"), "/tmp", 5⟩ 10 (by decide)).1.mpr
      ⟨2, rfl⟩,
    (c8_save_checkpoint_callback ⟨0, 4, some ("ckpt"), "/tmp", 5⟩ 7 (by decide)).2.mpr
      (by decide)⟩

/-! ## Claim C9 -/

/-- C9: during the actor-side training call, the rabit rendezvous is
joined first — with a task identifier of the form namespace colon
worker-instance-id, the namespace being the fixed string xgboost.ray in
brackets — before the training engine runs, and it is finalized on
every exit path, whether the engine returns a model or raises; the
engine outcome is then propagated unchanged. -/
theorem c9_rabit_lifecycle (actorId : String) (rabitArgs : List String)
    (engine : Except PyError Nat) :
    (RayXGBoostActor.trainModel actorId rabitArgs engine).1 =
      [TrainEvent.rabitInit (rabitArgs ++ ["DMLC_TASK_ID=" ++ ("[xgboost.ray]:" ++ actorId)]),
        TrainEvent.engineTrain, TrainEvent.rabitFinalize]
    ∧ (RayXGBoostActor.trainModel actorId rabitArgs engine).2 = engine := by
  have hlit : ("DMLC_TASK_ID=" ++ "[xgboost.ray]:") = "DMLC_TASK_ID=[xgboost.ray]:" := by
    decide
  have hstr : "DMLC_TASK_ID=[xgboost.ray]:" ++ actorId =
      "DMLC_TASK_ID=" ++ ("[xgboost.ray]:" ++ actorId) := by
    rw [← String.append_assoc, hlit]
  constructor
  · simp [RayXGBoostActor.trainModel, withRabitContext, rabitContextArgs, hstr]
  · rfl

/-! ## Helper lemmas: one attempt and the retry loop -/

theorem _train_spawned (cfg : JobConfig) (beh : AttemptBehavior) (s : TrainState) :
    ((_train cfg beh s).2).spawned = s.spawned + cfg.numActors := by
  unfold _train
  rcases beh with ⟨le, te, wf, r⟩
  cases le with
  | some e => rfl
  | none =>
    cases te with
    | some e => rfl
    | none =>
      by_cases hp : pyTruthy cfg.checkpointPfx
      · simp [hp]
      · simp [hp]

theorem _train_of_loadError (cfg : JobConfig) (beh : AttemptBehavior) (s : TrainState)
    (e : PyError) (h : beh.loadError = some e) :
    _train cfg beh s = (Except.error e, ⟨s.fs, s.spawned + cfg.numActors⟩) := by
  unfold _train
  rw [h]

theorem _train_of_trainError (cfg : JobConfig) (beh : AttemptBehavior) (s : TrainState)
    (e : PyError) (h1 : beh.loadError = none) (h2 : beh.trainError = some e) :
    _train cfg beh s =
      (Except.error e, ⟨s.fs ++ beh.writtenFiles, s.spawned + cfg.numActors⟩) := by
  unfold _train
  rw [h1, h2]

theorem _train_error_fs_mono (cfg : JobConfig) (beh : AttemptBehavior) (s : TrainState)
    (e : PyError) (s2 : TrainState) (h : _train cfg beh s = (Except.error e, s2)) :
    ∀ f, f ∈ s.fs → f ∈ s2.fs := by
  cases hle : beh.loadError with
  | some e2 =>
    rw [_train_of_loadError cfg beh s e2 hle] at h
    have hs2 : s2.fs = s.fs := by
      have := congrArg Prod.snd h
      simp at this
      rw [← this]
    intro f hf
    rw [hs2]
    exact hf
  | none =>
    cases hte : beh.trainError with
    | some e2 =>
      rw [_train_of_trainError cfg beh s e2 hle hte] at h
      have hs2 : s2.fs = s.fs ++ beh.writtenFiles := by
        have := congrArg Prod.snd h
        simp at this
        rw [← this]
      intro f hf
      rw [hs2]
      exact List.mem_append_left _ hf
    | none =>
      exfalso
      unfold _train at h
      rw [hle, hte] at h
      by_cases hp : pyTruthy cfg.checkpointPfx
      · simp [hp] at h
      · simp [hp] at h

theorem _cleanup_removes (pfxS path : String) (n : Nat) (fs : List String)
    (i : Nat) (hi : i < n) (f : String)
    (hf : _checkpoint_file path (some pfxS) i = some f) :
    f ∉ _cleanup pfxS path n fs := by
  intro hmem
  unfold _cleanup at hmem
  rw [List.mem_filter] at hmem
  have hany : ((List.range n).any
      fun j => decide (_checkpoint_file path (some pfxS) j = some f)) = false := by
    simpa using hmem.2
  rw [List.any_eq_false] at hany
  exact absurd (by simp [hf]) (hany i (List.mem_range.mpr hi))

theorem _train_ok_cleanup (cfg : JobConfig) (beh : AttemptBehavior) (s : TrainState)
    (r : Nat) (s2 : TrainState) (hp : pyTruthy cfg.checkpointPfx = true)
    (h : _train cfg beh s = (Except.ok r, s2)) :
    ∀ i, i < cfg.numActors →
      ∀ f, _checkpoint_file cfg.checkpointPath cfg.checkpointPfx i = some f → f ∉ s2.fs := by
  intro i hi f hf
  cases hpfx : cfg.checkpointPfx with
  | none => rw [hpfx] at hp; simp [pyTruthy] at hp
  | some p =>
    cases hle : beh.loadError with
    | some e => rw [_train_of_loadError cfg beh s e hle] at h; simp at h
    | none =>
      cases hte : beh.trainError with
      | some e => rw [_train_of_trainError cfg beh s e hle hte] at h; simp at h
      | none =>
        unfold _train at h
        rw [hle, hte, hp] at h
        simp only [if_true] at h
        have hs2 : s2.fs = _cleanup (cfg.checkpointPfx.getD "") cfg.checkpointPath
            cfg.numActors (s.fs ++ beh.writtenFiles) := by
          have := congrArg Prod.snd h
          simp at this
          rw [← this]
        rw [hs2, hpfx]
        rw [hpfx] at hf
        exact _cleanup_removes p cfg.checkpointPath cfg.numActors
          (s.fs ++ beh.writtenFiles) i hi f hf

theorem train_no_fallthrough_aux (behs : Nat → AttemptBehavior) (cfg : JobConfig)
    (maxR : Nat) :
    ∀ k tries s, maxR + 1 - tries ≤ k → tries ≤ maxR →
      (train behs cfg maxR tries s).1 ≠ LoopOutcome.fellThrough := by
  intro k
  induction k with
  | zero =>
    intro tries s hk htr
    omega
  | succ k ih =>
    intro tries s hk htr
    unfold train
    rw [if_pos htr]
    cases he : _train cfg (behs tries) s with
    | mk res s2 =>
      cases res with
      | ok r => simp
      | error e =>
        by_cases hray : e = PyError.rayActorError
        · subst hray
          simp only [if_pos rfl]
          by_cases h2 : tries + 1 ≤ maxR
          · rw [dif_pos h2]
            exact ih (tries + 1) s2 (by omega) h2
          · rw [dif_neg h2]
            simp
        · simp [hray]

theorem train_spawned_le_aux (behs : Nat → AttemptBehavior) (cfg : JobConfig) (maxR : Nat) :
    ∀ k tries s, maxR + 1 - tries ≤ k →
      ((train behs cfg maxR tries s).2).spawned ≤
        s.spawned + (maxR + 1 - tries) * cfg.numActors := by
  intro k
  induction k with
  | zero =>
    intro tries s hk
    have hng : ¬ tries ≤ maxR := by omega
    unfold train
    rw [if_neg hng]
    simp
  | succ k ih =>
    intro tries s hk
    by_cases htr : tries ≤ maxR
    · have hone : 0 < maxR + 1 - tries := by omega
      have hbase : s.spawned + cfg.numActors ≤
          s.spawned + (maxR + 1 - tries) * cfg.numActors :=
        Nat.add_le_add_left (Nat.le_mul_of_pos_left _ hone) _
      unfold train
      rw [if_pos htr]
      cases he : _train cfg (behs tries) s with
      | mk res s2 =>
        have hsp : s2.spawned = s.spawned + cfg.numActors := by
          have hh := _train_spawned cfg (behs tries) s
          rw [he] at hh
          exact hh
        cases res with
        | ok r =>
          simpa [hsp] using hbase
        | error e =>
          by_cases hray : e = PyError.rayActorError
          · subst hray
            simp only [if_pos rfl]
            by_cases h2 : tries + 1 ≤ maxR
            · rw [dif_pos h2]
              have ihres := ih (tries + 1) s2 (by omega)
              have hmul : (maxR + 1 - tries) * cfg.numActors =
                  (maxR + 1 - (tries + 1)) * cfg.numActors + cfg.numActors := by
                have h3 : maxR + 1 - tries = (maxR + 1 - (tries + 1)) + 1 := by omega
                rw [h3, Nat.succ_mul]
              calc ((train behs cfg maxR (tries + 1) s2).2).spawned
                  ≤ s2.spawned + (maxR + 1 - (tries + 1)) * cfg.numActors := ihres
                _ = s.spawned + ((maxR + 1 - (tries + 1)) * cfg.numActors + cfg.numActors) := by
                    rw [hsp]; ring
                _ = s.spawned + (maxR + 1 - tries) * cfg.numActors := by rw [hmul]
            · rw [dif_neg h2]
              simpa [hsp] using hbase
          · simpa [hray, hsp] using hbase
    · unfold train
      rw [if_neg htr]
      simp

theorem train_exhaust_single (behs : Nat → AttemptBehavior) (cfg : JobConfig) (s : TrainState)
    (hfail : (behs 0).loadError = some PyError.rayActorError ∨
      ((behs 0).loadError = none ∧ (behs 0).trainError = some PyError.rayActorError)) :
    train behs cfg 0 0 s =
      (LoopOutcome.raised (PyError.runtimeError
        (exhaustMessage cfg.checkpointPath cfg.checkpointFrequency)),
        (_train cfg (behs 0) s).2) := by
  unfold train
  rcases hfail with hle | ⟨hle, hte⟩
  · rw [_train_of_loadError cfg (behs 0) s PyError.rayActorError hle]
    simp
  · rw [_train_of_trainError cfg (behs 0) s PyError.rayActorError hle hte]
    simp

theorem train_returned_state (behs : Nat → AttemptBehavior) (cfg : JobConfig) (maxR : Nat) :
    ∀ k tries s r s2, maxR + 1 - tries ≤ k →
      train behs cfg maxR tries s = (LoopOutcome.returned r, s2) →
      ∃ t st, _train cfg (behs t) st = (Except.ok r, s2) := by
  intro k
  induction k with
  | zero =>
    intro tries s r s2 hk h
    have hng : ¬ tries ≤ maxR := by omega
    unfold train at h
    rw [if_neg hng] at h
    simp at h
  | succ k ih =>
    intro tries s r s2 hk h
    by_cases htr : tries ≤ maxR
    · unfold train at h
      rw [if_pos htr] at h
      cases he : _train cfg (behs tries) s with
      | mk res st2 =>
        rw [he] at h
        cases res with
        | ok r2 =>
          simp only [Prod.mk.injEq, LoopOutcome.returned.injEq] at h
          refine ⟨tries, s, ?_⟩
          rw [he, h.1, h.2]
        | error e =>
          by_cases hray : e = PyError.rayActorError
          · subst hray
            simp only [if_pos rfl] at h
            by_cases h2 : tries + 1 ≤ maxR
            · rw [dif_pos h2] at h
              exact ih (tries + 1) st2 r s2 (by omega) h
            · rw [dif_neg h2] at h
              simp at h
          · simp [hray] at h
    · unfold train at h
      rw [if_neg htr] at h
      simp at h

/-! ## Claim C2 -/

set_option maxRecDepth 8000 in
/-- C2 (code bug): when the retry budget is exhausted, train raises a
RuntimeError whose message reports the checkpoint directory, but in the
slot its own text labels as the prefix it interpolates the checkpoint
frequency — the source formats checkpoint_path and checkpoint_frequency
— so the configured prefix (here the string myrun) never appears in the
message and the caller is given a wrong value to resume with. -/
theorem c2_exhaustion_message_bug :
    (train (fun _ => ⟨none, some PyError.rayActorError, [], 0⟩)
        ⟨4, some ("myrun"), "/data/ck", 7⟩ 0 0 ⟨[], 0⟩).1 =
      LoopOutcome.raised (PyError.runtimeError (exhaustMessage ("/data/ck") 7))
    ∧ List.IsInfix ("with prefix `7`").data ((exhaustMessage ("/data/ck") 7).data)
    ∧ ¬ List.IsInfix ("myrun").data ((exhaustMessage ("/data/ck") 7).data) := by
  refine ⟨?_, by decide, by decide⟩
  rw [train_exhaust_single (fun _ => ⟨none, some PyError.rayActorError, [], 0⟩)
    ⟨4, some ("myrun"), "/data/ck", 7⟩ ⟨[], 0⟩ (Or.inr ⟨rfl, rfl⟩)]

/-! ## Claim C3 -/

/-- C3: for every restart budget maxR, the loop runs at most maxR plus
one attempts and every attempt spawns exactly numActors fresh workers,
so the total count of worker-spawn events is at most (maxR plus one)
times numActors — in particular at most 12 for four workers and budget
two — and with budget zero a worker failure is fatal after a single
attempt (its spawn count is exactly one attempt's worth) with no
retry. -/
theorem c3_spawn_bound (behs : Nat → AttemptBehavior) (cfg : JobConfig) (maxR : Nat)
    (s : TrainState) :
    ((train behs cfg maxR 0 s).2).spawned ≤ s.spawned + (maxR + 1) * cfg.numActors
    ∧ (cfg.numActors = 4 → maxR = 2 → s.spawned = 0 →
        ((train behs cfg maxR 0 s).2).spawned ≤ 12)
    ∧ (maxR = 0 →
        ((behs 0).loadError = some PyError.rayActorError ∨
          ((behs 0).loadError = none ∧ (behs 0).trainError = some PyError.rayActorError)) →
        (train behs cfg 0 0 s).1 = LoopOutcome.raised (PyError.runtimeError
          (exhaustMessage cfg.checkpointPath cfg.checkpointFrequency))
        ∧ ((train behs cfg 0 0 s).2).spawned = s.spawned + cfg.numActors) := by
  have hmain : ((train behs cfg maxR 0 s).2).spawned ≤
      s.spawned + (maxR + 1) * cfg.numActors := by
    have h := train_spawned_le_aux behs cfg maxR (maxR + 1) 0 s (by omega)
    simpa using h
  refine ⟨hmain, ?_, ?_⟩
  · intro hN hR hs0
    subst hR
    rw [hN, hs0] at hmain
    simpa using hmain
  · intro hR hfail
    have h := train_exhaust_single behs cfg s hfail
    constructor
    · rw [h]
    · rw [h]
      exact _train_spawned cfg (behs 0) s

/-- Witness for C3: a concrete budget-two run stays within 12 spawns,
and a concrete budget-zero run with a worker failure raises the
exhaustion error. -/
theorem c3_spawn_bound_witness :
    ((train (fun _ => ⟨none, some PyError.rayActorError, [], 0⟩)
        ⟨4, some ("ck"), "/tmp", 5⟩ 2 0 ⟨[], 0⟩).2).spawned ≤ 12
    ∧ (train (fun _ => ⟨none, some PyError.rayActorError, [], 0⟩)
        ⟨4, some ("ck"), "/tmp", 5⟩ 0 0 ⟨[], 0⟩).1 =
      LoopOutcome.raised (PyError.runtimeError (exhaustMessage ("/tmp") 5)) := by
  constructor
  · exact (c3_spawn_bound (fun _ => ⟨none, some PyError.rayActorError, [], 0⟩)
      ⟨4, some ("ck"), "/tmp", 5⟩ 2 ⟨[], 0⟩).2.1 rfl rfl rfl
  · exact ((c3_spawn_bound (fun _ => ⟨none, some PyError.rayActorError, [], 0⟩)
      ⟨4, some ("ck"), "/tmp", 5⟩ 0 ⟨[], 0⟩).2.2 rfl (Or.inr ⟨rfl, rfl⟩)).1

/-! ## Claim C4 -/

/-- C4: only the Ray actor failure is absorbed by the retry loop; any
other error surfaced during shard loading or training at any live
attempt is propagated to the caller immediately and unmodified — the
loop ends at that very attempt, consuming no retry budget. -/
theorem c4_other_error_propagates (behs : Nat → AttemptBehavior) (cfg : JobConfig)
    (maxR tries : Nat) (s : TrainState) (e : PyError)
    (htries : tries ≤ maxR)
    (herr : (behs tries).loadError = some e ∨
      ((behs tries).loadError = none ∧ (behs tries).trainError = some e))
    (hray : e ≠ PyError.rayActorError) :
    train behs cfg maxR tries s = (LoopOutcome.raised e, (_train cfg (behs tries) s).2) := by
  unfold train
  rw [if_pos htries]
  rcases herr with hle | ⟨hle, hte⟩
  · rw [_train_of_loadError cfg (behs tries) s e hle]
    simp [hray]
  · rw [_train_of_trainError cfg (behs tries) s e hle hte]
    simp [hray]

/-- Witness for C4: a concrete training-engine error with ample retry
budget left is raised directly from the first attempt. -/
theorem c4_other_error_propagates_witness :
    train (fun _ => ⟨none, some (PyError.otherError ("invalid params")), [], 0⟩)
        ⟨4, some ("ck"), "/tmp", 5⟩ 3 0 ⟨[], 0⟩ =
      (LoopOutcome.raised (PyError.otherError ("invalid params")),
        (_train ⟨4, some ("ck"), "/tmp", 5⟩
          ⟨none, some (PyError.otherError ("invalid params")), [], 0⟩ ⟨[], 0⟩).2) :=
  c4_other_error_propagates (fun _ => ⟨none, some (PyError.otherError ("invalid params")), [], 0⟩)
    ⟨4, some ("ck"), "/tmp", 5⟩ 3 0 ⟨[], 0⟩ (PyError.otherError ("invalid params"))
    (by decide) (Or.inr ⟨rfl, rfl⟩) (by decide)

/-! ## Claim C5 -/

/-- C5: checkpoint files are deleted only on the success path: every
attempt that ends in an error (worker failure or any other) preserves
every file that existed before it, and when a run returns successfully
with a truthy checkpoint prefix the cleanup removes every one of the
per-rank checkpoint files from the final file-system state. -/
theorem c5_checkpoint_preservation :
    (∀ (cfg : JobConfig) (beh : AttemptBehavior) (s : TrainState) (e : PyError)
        (s2 : TrainState), _train cfg beh s = (Except.error e, s2) →
        ∀ f, f ∈ s.fs → f ∈ s2.fs)
    ∧ (∀ (cfg : JobConfig) (beh : AttemptBehavior) (s : TrainState) (r : Nat)
        (s2 : TrainState), pyTruthy cfg.checkpointPfx = true →
        _train cfg beh s = (Except.ok r, s2) →
        ∀ i, i < cfg.numActors →
          ∀ f, _checkpoint_file cfg.checkpointPath cfg.checkpointPfx i = some f → f ∉ s2.fs)
    ∧ (∀ (behs : Nat → AttemptBehavior) (cfg : JobConfig) (maxR tries : Nat)
        (s : TrainState) (r : Nat) (s2 : TrainState),
        pyTruthy cfg.checkpointPfx = true →
        train behs cfg maxR tries s = (LoopOutcome.returned r, s2) →
        ∀ i, i < cfg.numActors →
          ∀ f, _checkpoint_file cfg.checkpointPath cfg.checkpointPfx i = some f →
            f ∉ s2.fs) := by
  refine ⟨?_, ?_, ?_⟩
  · intro cfg beh s e s2 h f hf
    exact _train_error_fs_mono cfg beh s e s2 h f hf
  · intro cfg beh s r s2 hp h i hi f hf
    exact _train_ok_cleanup cfg beh s r s2 hp h i hi f hf
  · intro behs cfg maxR tries s r s2 hp h i hi f hf
    obtain ⟨t, st, hok⟩ :=
      train_returned_state behs cfg maxR (maxR + 1 - tries) tries s r s2 (by omega) h
    exact _train_ok_cleanup cfg (behs t) st r s2 hp hok i hi f hf

/-- Witness for C5: a concrete failed attempt keeps the pre-existing
rank-0 checkpoint file, and a concrete successful run removes the
rank-1 checkpoint file its worker wrote. -/
theorem c5_checkpoint_preservation_witness :
    ("/tmp/ck_00000.xgb" ∈ (⟨["/tmp/ck_00000.xgb", "w"], 4⟩ : TrainState).fs)
    ∧ ¬ ("/tmp/ck_00001.xgb" ∈ (⟨[], 4⟩ : TrainState).fs) := by
  constructor
  · exact c5_checkpoint_preservation.1 ⟨4, some ("ck"), "/tmp", 5⟩
      ⟨none, some PyError.rayActorError, ["w"], 0⟩ ⟨["/tmp/ck_00000.xgb"], 0⟩
      PyError.rayActorError ⟨["/tmp/ck_00000.xgb", "w"], 4⟩ rfl
      ("/tmp/ck_00000.xgb") (by decide)
  · exact c5_checkpoint_preservation.2.2 (fun _ => ⟨none, none, ["/tmp/ck_00001.xgb"], 9⟩)
      ⟨4, some ("ck"), "/tmp", 5⟩ 0 0 ⟨[], 0⟩ 9 ⟨[], 4⟩ (by decide)
      (by unfold train; rfl) 1 (by decide) ("/tmp/ck_00001.xgb") (by decide)

/-! ## Claim C10 -/

/-- C10: the public train function never reaches the trailing
fall-through return of None and the empty dictionary: starting from
tries equal to zero, the loop either returns a successful attempt
result or raises (a propagated error or the exhaustion RuntimeError),
because the loop counter is only incremented when another try remains,
so the loop guard cannot be found false. -/
theorem c10_no_fallthrough (behs : Nat → AttemptBehavior) (cfg : JobConfig) (maxR : Nat)
    (s : TrainState) :
    (train behs cfg maxR 0 s).1 ≠ LoopOutcome.fellThrough :=
  train_no_fallthrough_aux behs cfg maxR (maxR + 1) 0 s (by omega) (Nat.zero_le maxR)

end XGBoostRay
